import Mathlib

/-!
Verification of the `PyDeviceList` device-list abstraction from
`jaxlib/py_device_list.cc`.

A `PyDeviceList` holds a tagged union `device_list_` with two variants:
variant 0 is a native `xla::ifrt::DeviceListRef` (an ordered list of device
identities scoped to one client, plus the optional owning `py_client_`), and
variant 1 is a Python tuple of externally supplied, duck-typed device objects.
Derived facts (hash, addressability, process indices, memory-kind info, the
addressable sublist) are lazily computed, write-once memoized fields.

The embedding below models each C++ method as a Lean function.  Mutable
memoized state is threaded explicitly: a stateful method takes the object
value and returns its result together with the updated object value.  Fatal
control flow (thrown `nb::index_error`, a failing `CHECK`, a null-pointer
dereference) is modelled with `Except Err`; `absl::Status` failures of the
memory-kind queries are modelled with `Except String` (a separate, non-fatal
error channel, as in the source).
-/

namespace JaxDL

/-- A runtime client (`jax::PyClient`).  Client handles are compared by
pointer in the source; clients are modelled as records with an identifying
`id`, so value equality models pointer equality. `processIndex` models
`PyClient::process_index()`, the local process index of the client. -/
structure Client where
  id : Nat
  processIndex : Int
deriving DecidableEq

instance : DecidableEq (Except String String) := fun a b =>
  match a, b with
  | .error a, .error b =>
    if h : a = b then isTrue (by rw [h]) else isFalse (by intro hc; cases hc; exact h rfl)
  | .error _, .ok _ => isFalse (by intro h; cases h)
  | .ok _, .error _ => isFalse (by intro h; cases h)
  | .ok a, .ok b =>
    if h : a = b then isTrue (by rw [h]) else isFalse (by intro hc; cases hc; exact h rfl)

/-- A native device identity (`xla::ifrt::Device*`).  Devices are compared by
pointer in the source; the `id` field identifies the device.  `processIndex`
models `Device::ProcessIndex()`; `defaultMemoryKind` models the chain
`DefaultMemory()` followed by `Kind().memory_kind()` (an `absl::StatusOr`, so
it may fail); `memoryKinds` models the kinds of `Memories()`. -/
structure Device where
  id : Nat
  processIndex : Int
  kind : String
  defaultMemoryKind : Except String String
  memoryKinds : List String
deriving DecidableEq

/-- A duck-typed external device object (a Python object that is not a
`jax::PyDevice`).  `objId` models the Python object identity (`id()`), used
for default hashing and equality.  The remaining fields model the dynamic
attributes the source reads: `process_index`, `client.process_index()`,
`default_memory().kind` (which may raise, modelled as `Except`), and
`addressable_memories()`. -/
structure DuckDevice where
  objId : Nat
  processIndex : Int
  clientProcessIndex : Int
  defaultMemoryKind : Except String String
  addressableMemories : List String
deriving DecidableEq

/-- An element of the Python device tuple held by a `PyDeviceList`: either a
`jax::PyDevice` wrapper (the wrapper produced by `PyClient::GetPyDevice`,
identified by its client and wrapped device, since the client registry
deduplicates wrappers) or a duck-typed external device object. -/
inductive PyObj where
  | pyDevice (client : Client) (dev : Device)
  | duck (d : DuckDevice)
deriving DecidableEq

/-- The tagged union `device_list_`: variant 0 is the native
`ifrt::DeviceListRef` (its ordered device identities), variant 1 is the
Python tuple of device objects. -/
inductive DeviceListVariant where
  | native (devs : List Device)
  | ducked (objs : List PyObj)
deriving DecidableEq

/-- The memory-kind information computed by `PopulateMemoryKindInfo`:
the default memory kind (`nb::none()` modelled as `none`) and the ordered
memory-kind tuple. -/
structure MemoryKindInfo where
  default_memory_kind : Option String
  memory_kinds : List String
deriving DecidableEq

/-- Fatal control flow: a thrown `nb::index_error`, a failing `CHECK` /
`CHECK_EQ` (which aborts the process), or a null-pointer dereference of
`py_client_`. -/
inductive Err where
  | indexError
  | checkFailure
  | fatal
deriving DecidableEq

/-- The `PyDeviceList` object state.  `objId` models the object's address
(pointer identity).  `py_client_` is the optional owning client,
`device_list_` the tagged union, and the remaining fields are the lazily
computed, write-once memoization fields.  This is an inductive (rather than a
structure) because the memoized addressable sublist is itself a
`PyDeviceList`. -/
inductive PyDeviceList where
  | mk (objId : Nat) (py_client : Option Client) (device_list : DeviceListVariant)
      (hashMemo : Option Nat) (isFullyAddressableMemo : Option Bool)
      (processIndicesMemo : Option (List Int))
      (addressableDeviceListMemo : Option PyDeviceList)
      (memoryKindInfoMemo : Option (Except String MemoryKindInfo))

namespace PyDeviceList

/-- The object identity (address) of the list. -/
def objId : PyDeviceList → Nat
  | .mk o _ _ _ _ _ _ _ => o

/-- The `py_client_` field. -/
def py_client : PyDeviceList → Option Client
  | .mk _ c _ _ _ _ _ _ => c

/-- The `device_list_` tagged union. -/
def device_list : PyDeviceList → DeviceListVariant
  | .mk _ _ v _ _ _ _ _ => v

/-- The memoized `hash_` field. -/
def hashMemo : PyDeviceList → Option Nat
  | .mk _ _ _ h _ _ _ _ => h

/-- The memoized `is_fully_addressable_` field. -/
def isFullyAddressableMemo : PyDeviceList → Option Bool
  | .mk _ _ _ _ f _ _ _ => f

/-- The memoized `process_indices_` field (a `std::set<int>`, modelled as a
sorted duplicate-free list). -/
def processIndicesMemo : PyDeviceList → Option (List Int)
  | .mk _ _ _ _ _ p _ _ => p

/-- The memoized `addressable_device_list_` field. -/
def addressableDeviceListMemo : PyDeviceList → Option PyDeviceList
  | .mk _ _ _ _ _ _ a _ => a

/-- The memoized `memory_kind_info_` field (value or cached failure). -/
def memoryKindInfoMemo : PyDeviceList → Option (Except String MemoryKindInfo)
  | .mk _ _ _ _ _ _ _ m => m

/-- Write the `hash_` memo. -/
def setHash : PyDeviceList → Option Nat → PyDeviceList
  | .mk o c v _ f p a m, h => .mk o c v h f p a m

/-- Write the `is_fully_addressable_` memo. -/
def setIfa : PyDeviceList → Option Bool → PyDeviceList
  | .mk o c v h _ p a m, f => .mk o c v h f p a m

/-- Write the `process_indices_` memo. -/
def setPis : PyDeviceList → Option (List Int) → PyDeviceList
  | .mk o c v h f _ a m, p => .mk o c v h f p a m

/-- Write the `addressable_device_list_` memo. -/
def setAdl : PyDeviceList → Option PyDeviceList → PyDeviceList
  | .mk o c v h f p _ m, a => .mk o c v h f p a m

/-- Write the `memory_kind_info_` memo. -/
def setMki : PyDeviceList → Option (Except String MemoryKindInfo) → PyDeviceList
  | .mk o c v h f p a _, m => .mk o c v h f p a m

end PyDeviceList

/-- A Python object handed to `PyDeviceList::Equal` as `other`: either a
`PyDeviceList` instance or some other Python object (identified by its
object id), for which the `nb::isinstance<PyDeviceList>` test fails. -/
inductive PyAny where
  | dl (l : PyDeviceList)
  | other (objId : Nat)

namespace PyObj

/-- The `process_index` attribute read by `ProcessIndices` (case 1) and by
`AddressableDeviceList` (case 1): for a `PyDevice` wrapper this is
`PyDevice::process_index()`, i.e. the wrapped device's process index; for a
duck-typed device it is the object's own `process_index` attribute. -/
def processIndexAttr : PyObj → Int
  | .pyDevice _ d => d.processIndex
  | .duck d => d.processIndex

/-- The `client.process_index()` attribute chain read by `IsFullyAddressable`
(case 1) and `AddressableDeviceList` (case 1). -/
def clientProcessIndexAttr : PyObj → Int
  | .pyDevice c _ => c.processIndex
  | .duck d => d.clientProcessIndex

/-- The `default_memory().kind` attribute chain read by
`PopulateMemoryKindInfoForDuckTypedDevices`; raising is modelled as
`Except.error`. -/
def defaultMemoryKindAttr : PyObj → Except String String
  | .pyDevice _ d => d.defaultMemoryKind
  | .duck d => d.defaultMemoryKind

/-- The `addressable_memories()` attribute read by
`PopulateMemoryKindInfoForDuckTypedDevices`. -/
def addressableMemoriesAttr : PyObj → List String
  | .pyDevice _ d => d.memoryKinds
  | .duck d => d.addressableMemories

/-- The CPython hash of a device object in the tuple: `jax::PyDevice` defines
no `__hash__`, so its wrapper hashes by object identity, which the client
registry makes a function of the (client, device) pair; a duck-typed object
without `__hash__` hashes by its object id. -/
def pyHash : PyObj → Nat
  | .pyDevice c d => Nat.pair (Nat.pair c.id d.id) 0
  | .duck d => Nat.pair d.objId 1

end PyObj

/-- `absl::HashOf` applied to the native `ifrt::DeviceListRef` in
`PyDeviceList::Hash` (case 0): a structural hash of the ordered device
identities.  The concrete mixing is irrelevant to the claims; what matters
is that it is a deterministic function of the device-identity sequence, and
that it is unrelated to the CPython tuple hash used by the other variant
(`absl` hashing is even randomized per process, so the two can never be
relied upon to coincide).  The seeds 0 and 1 below realize that unrelatedness
on the empty list. -/
def hashNative (devs : List Device) : Nat :=
  devs.foldl (fun h d => Nat.pair h d.id) 0

/-- `nb::hash` of the Python device tuple in `PyDeviceList::Hash` (case 1):
the CPython tuple hash, a deterministic combination of the element hashes. -/
def pyTupleHash (objs : List PyObj) : Nat :=
  objs.foldl (fun h o => Nat.pair h o.pyHash) 1

/-- The hash value `PyDeviceList::Hash` computes (before memoization),
switching on the variant. -/
def computeHash : DeviceListVariant → Nat
  | .native devs => hashNative devs
  | .ducked objs => pyTupleHash objs

/-- `std::set<int>::insert`, on the sorted duplicate-free list model of the
set. -/
def setInsert (x : Int) : List Int → List Int
  | [] => [x]
  | y :: ys => if x < y then x :: y :: ys else if x = y then y :: ys else y :: setInsert x ys

namespace PyDeviceList

/-- `PyDeviceList::Len`: the number of devices in either variant. -/
def Len (st : PyDeviceList) : Nat :=
  match st.device_list with
  | .native devs => devs.length
  | .ducked objs => objs.length

/-- The loop body of the `PyDeviceList(nb::tuple)` constructor: walk the
tuple elements, classifying each as a `jax::PyDevice` or not, tracking the
`py_client_` seen so far and accumulating the native devices (in reverse).
Returns the final `py_client_` value together with `some (client, devices)`
when the upgrade to the native representation succeeds, or `none` when it
aborts at a non-`PyDevice` element or at an element owned by a different
client than previously seen (in which case `py_client_` keeps whatever value
the loop had assigned so far, exactly as the early `return`s do). -/
def upgradeLoop : List PyObj → Option Client → List Device →
    Option Client × Option (Client × List Device)
  | [], co, acc =>
    match co with
    | some c => (some c, some (c, acc.reverse))
    | none => (none, none)
  | o :: os, co, acc =>
    match o with
    | .duck _ => (co, none)
    | .pyDevice c d =>
      match co with
      | none => upgradeLoop os (some c) (d :: acc)
      | some c0 => if c = c0 then upgradeLoop os (some c0) (d :: acc) else (co, none)

/-- The `PyDeviceList(nb::tuple py_device_assignment)` constructor: start
with the tuple as variant 1; an empty tuple is kept as-is; otherwise attempt
the opportunistic upgrade, and on success replace `device_list_` with the
native list built by `MakeDeviceList` (which cannot fail here: every element
is a `PyDevice` wrapper of the one client `py_client_`, so no device is
foreign to it).  `oid` is the address of the newly allocated object; all
memoization fields start unset. -/
def mkFromTuple (oid : Nat) (objs : List PyObj) : PyDeviceList :=
  if objs.isEmpty then .mk oid none (.ducked objs) none none none none none
  else
    match upgradeLoop objs none [] with
    | (_, some (c, devs)) => .mk oid (some c) (.native devs) none none none none none
    | (co, none) => .mk oid co (.ducked objs) none none none none none

/-- The `PyDeviceList(nb_class_ptr<PyClient>, ifrt::DeviceListRef)`
constructor: a native-variant list with the given owning client. -/
def mkFreshNative (oid : Nat) (c : Client) (devs : List Device) : PyDeviceList :=
  .mk oid (some c) (.native devs) none none none none none

/-- `PyDeviceList::AsTuple`: for the native variant, materialize the tuple of
`PyDevice` wrappers via `py_client_->GetPyDevice` (dereferencing a null
`py_client_` is fatal); for the duck variant, the stored tuple itself. -/
def AsTuple (st : PyDeviceList) : Except Err (List PyObj) :=
  match st.device_list with
  | .native devs =>
    match st.py_client with
    | some c => .ok (devs.map (PyObj.pyDevice c))
    | none => .error .fatal
  | .ducked objs => .ok objs

/-- `PyDeviceList::Dump` (the `__getstate__` serialization): `AsTuple`. -/
def Dump (st : PyDeviceList) : Except Err (List PyObj) :=
  st.AsTuple

/-- `PyDeviceList::Hash` with its write-once memoization of `hash_`. -/
def Hash (st : PyDeviceList) : Nat × PyDeviceList :=
  match st.hashMemo with
  | some h => (h, st)
  | none =>
    let h := computeHash st.device_list
    (h, st.setHash (some h))

/-- `PyDeviceList::Equal`: `false` for a non-`PyDeviceList` `other`; a
pointer-identity fast path; then the memoized hashes as a cheap reject; then
structural comparison of the two native lists when both are variant 0, and
otherwise Python equality of the materialized tuples.  The updated states of
`self` and `other` (their `hash_` memos may have been filled) are returned
alongside the result. -/
def Equal (self : PyDeviceList) (other : PyAny) :
    Except Err (Bool × PyDeviceList × PyAny) :=
  match other with
  | .other oid => .ok (false, self, .other oid)
  | .dl o =>
    if self.objId = o.objId then .ok (true, self, .dl o)
    else
      let (h1, self) := self.Hash
      let (h2, o) := o.Hash
      if h1 ≠ h2 then .ok (false, self, .dl o)
      else
        match self.device_list, o.device_list with
        | .native d1, .native d2 => .ok (decide (d1 = d2), self, .dl o)
        | _, _ => do
          let t1 ← self.AsTuple
          let t2 ← o.AsTuple
          .ok (decide (t1 = t2), self, .dl o)

/-- `PyDeviceList::NotEqual`: the negation of `Equal`. -/
def NotEqual (self : PyDeviceList) (other : PyAny) :
    Except Err (Bool × PyDeviceList × PyAny) :=
  match self.Equal other with
  | .ok (b, s, x) => .ok (!b, s, x)
  | .error e => .error e

/-- `PyDeviceList::GetItem`: for the native variant, bounds-check the index
(negative indices count from the end; out of range throws
`nb::index_error`), then resolve the device through the client registry; for
the duck variant, delegate to the tuple's `__getitem__`, which has the same
indexing semantics. -/
def GetItem (st : PyDeviceList) (index : Int) : Except Err PyObj :=
  match st.device_list with
  | .native devs =>
    let n : Int := devs.length
    if index < -n ∨ n ≤ index then .error .indexError
    else
      let index := if index < 0 then index + n else index
      match st.py_client with
      | some c =>
        match devs[index.toNat]? with
        | some d => .ok (.pyDevice c d)
        | none => .error .fatal
      | none => .error .fatal
  | .ducked objs =>
    let n : Int := objs.length
    if index < -n ∨ n ≤ index then .error .indexError
    else
      let index := if index < 0 then index + n else index
      match objs[index.toNat]? with
      | some o => .ok o
      | none => .error .fatal

/-- The body of `PyDeviceList::ProcessIndices`: collect each device's process
index into a `std::set<int>`. -/
def processIndicesCompute : DeviceListVariant → List Int
  | .native devs => devs.foldl (fun s d => setInsert d.processIndex s) []
  | .ducked objs => objs.foldl (fun s o => setInsert o.processIndexAttr s) []

/-- `PyDeviceList::ProcessIndices` with its write-once memoization. -/
def ProcessIndices (st : PyDeviceList) : List Int × PyDeviceList :=
  match st.processIndicesMemo with
  | some ps => (ps, st)
  | none =>
    let ps := processIndicesCompute st.device_list
    (ps, st.setPis (some ps))

/-- The local process index `IsFullyAddressable` compares against: for the
native variant, `py_client_ ? py_client_->process_index() : 0`; for the duck
variant, element 0's `client.process_index()` (fatal on an empty tuple,
though that branch is unreachable: it is only consulted when the
process-index set is a singleton). -/
def ifaLocalProcessIndex (st : PyDeviceList) : Except Err Int :=
  match st.device_list with
  | .native _ =>
    .ok ((st.py_client.map Client.processIndex).getD 0)
  | .ducked objs =>
    match objs with
    | o :: _ => .ok o.clientProcessIndexAttr
    | [] => .error .fatal

/-- `PyDeviceList::IsFullyAddressable` with its write-once memoization: first
compute `ProcessIndices`; if the set has more than one element the list is
not fully addressable; otherwise `CHECK_EQ(process_indices_->size(), 1)` (a
fatal assertion that fails on the empty set, i.e. on every empty list), and
the list is fully addressable iff the set's sole element (`*begin()`) equals
the local process index. -/
def IsFullyAddressable (st : PyDeviceList) : Except Err (Bool × PyDeviceList) :=
  match st.isFullyAddressableMemo with
  | some b => .ok (b, st)
  | none =>
    let (pis, st1) := st.ProcessIndices
    if 1 < pis.length then .ok (false, st1.setIfa (some false))
    else
      match pis with
      | [p] => do
        let pi ← st1.ifaLocalProcessIndex
        let b := decide (p = pi)
        .ok (b, st1.setIfa (some b))
      | _ => .error .checkFailure

/-- `PyDeviceList::AddressableDeviceList`: if the list is fully addressable,
return `self` itself (deliberately not cached in
`addressable_device_list_`, to avoid a retain cycle); otherwise return the
memoized sublist, computing it on first use by filtering, for the native
variant, the devices whose process index equals the owning client's process
index (then building a fresh native list through the client), and for the
duck variant, the elements whose `process_index` equals their own
`client.process_index()` (then running the tuple constructor on the filtered
tuple).  `fresh` is the address of the newly allocated list, when one is
allocated. -/
def AddressableDeviceList (st : PyDeviceList) (fresh : Nat) :
    Except Err (PyDeviceList × PyDeviceList) := do
  let (b, st) ← st.IsFullyAddressable
  if b then .ok (st, st)
  else
    match st.addressableDeviceListMemo with
    | some cached => .ok (cached, st)
    | none =>
      match st.device_list with
      | .native devs =>
        let pi := (st.py_client.map Client.processIndex).getD 0
        let kept := devs.filter (fun d => d.processIndex = pi)
        match st.py_client with
        | none => .error .fatal
        | some c =>
          let newList := mkFreshNative fresh c kept
          .ok (newList, st.setAdl (some newList))
      | .ducked objs =>
        let kept := objs.filter (fun o => o.processIndexAttr = o.clientProcessIndexAttr)
        let newList := mkFromTuple fresh kept
        .ok (newList, st.setAdl (some newList))

/-- `PyDeviceList::PopulateMemoryKindInfo` together with
`PopulateMemoryKindInfoForDuckTypedDevices`, as the value the computation
produces: on an empty list, a `none` default kind and an empty kind tuple;
otherwise device 0 is the representative, a failure of its default-memory
query being the cached failure (the duck path wraps the caught Python error
in `xla::InvalidArgument`). -/
def populateMemoryKindInfo (st : PyDeviceList) : Except String MemoryKindInfo :=
  match st.device_list with
  | .native devs =>
    match devs with
    | [] => .ok ⟨none, []⟩
    | d :: _ =>
      match d.defaultMemoryKind with
      | .error e => .error e
      | .ok k => .ok ⟨some k, d.memoryKinds⟩
  | .ducked objs =>
    match objs with
    | [] => .ok ⟨none, []⟩
    | o :: _ =>
      match o.defaultMemoryKindAttr with
      | .error e => .error ("INVALID_ARGUMENT: " ++ e)
      | .ok k => .ok ⟨some k, o.addressableMemoriesAttr⟩

/-- `PyDeviceList::MemoryKinds`: populate `memory_kind_info_` on first use
(caching also a failure), then return the cached failure or the memory-kind
tuple. -/
def MemoryKinds (st : PyDeviceList) : Except String (List String) × PyDeviceList :=
  match st.memoryKindInfoMemo with
  | some (.error e) => (.error e, st)
  | some (.ok i) => (.ok i.memory_kinds, st)
  | none =>
    match st.populateMemoryKindInfo with
    | .error e => (.error e, st.setMki (some (.error e)))
    | .ok i => (.ok i.memory_kinds, st.setMki (some (.ok i)))

/-- `PyDeviceList::DefaultMemoryKind`: populate `memory_kind_info_` on first
use (caching also a failure), then return the cached failure or the default
memory kind. -/
def DefaultMemoryKind (st : PyDeviceList) :
    Except String (Option String) × PyDeviceList :=
  match st.memoryKindInfoMemo with
  | some (.error e) => (.error e, st)
  | some (.ok i) => (.ok i.default_memory_kind, st)
  | none =>
    match st.populateMemoryKindInfo with
    | .error e => (.error e, st.setMki (some (.error e)))
    | .ok i => (.ok i.default_memory_kind, st.setMki (some (.ok i)))

end PyDeviceList

/-- Well-formedness of the tagged union as the constructors establish it: a
native-variant list built by either constructor carries its owning client,
and a duck-variant list that is non-empty is precisely one on which the
constructor's upgrade attempt failed (otherwise the constructor would have
upgraded it). -/
def VariantOK (st : PyDeviceList) : Prop :=
  match st.device_list with
  | .native _ => st.py_client.isSome = true
  | .ducked objs => objs ≠ [] → (PyDeviceList.upgradeLoop objs none []).2 = none

/-- The `hash_` memo, when populated, holds the value `Hash` computes: the
write-once memoization discipline of the source. -/
def HashOK (st : PyDeviceList) : Prop :=
  st.hashMemo = none ∨ st.hashMemo = some (computeHash st.device_list)

/-- The two construction paths of a `PyDeviceList` from an ordered sequence
of device identities: the tuple constructor applied to the sequence, or the
native constructor applied to a client and device list (whose materialized
identity sequence is the corresponding tuple of `PyDevice` wrappers). -/
inductive BuiltFrom : PyDeviceList → List PyObj → Prop where
  | ofTuple (oid : Nat) (objs : List PyObj) :
      BuiltFrom (PyDeviceList.mkFromTuple oid objs) objs
  | ofNative (oid : Nat) (c : Client) (devs : List Device) :
      BuiltFrom (PyDeviceList.mkFreshNative oid c devs) (devs.map (PyObj.pyDevice c))

namespace PyDeviceList

lemma setInsert_ne_nil (x : Int) (s : List Int) : setInsert x s ≠ [] := by
  cases s with
  | nil => simp [setInsert]
  | cons y ys =>
    simp only [setInsert]
    split
    · simp
    · split <;> simp

lemma foldl_setInsert_ne_nil {α : Type} (f : α → Int) :
    ∀ (l : List α) (s : List Int), s ≠ [] ∨ l ≠ [] →
      l.foldl (fun acc a => setInsert (f a) acc) s ≠ [] := by
  intro l
  induction l with
  | nil => intro s h; simpa using h
  | cons a l ih =>
    intro s _
    simpa using ih (setInsert (f a) s) (Or.inl (setInsert_ne_nil _ _))

lemma processIndicesCompute_ne_nil {v : DeviceListVariant}
    (h : (PyDeviceList.mk 0 none v none none none none none).Len ≠ 0) :
    processIndicesCompute v ≠ [] := by
  cases v with
  | native devs =>
    have : devs ≠ [] := by
      intro hc; apply h; simp [Len, device_list, hc]
    simpa [processIndicesCompute] using
      foldl_setInsert_ne_nil (fun d : Device => d.processIndex) devs [] (Or.inr this)
  | ducked objs =>
    have : objs ≠ [] := by
      intro hc; apply h; simp [Len, device_list, hc]
    simpa [processIndicesCompute] using
      foldl_setInsert_ne_nil (fun o : PyObj => o.processIndexAttr) objs [] (Or.inr this)

lemma upgradeLoop_map_same_client (devs : List Device) (c : Client) :
    ∀ acc : List Device,
      upgradeLoop (devs.map (PyObj.pyDevice c)) (some c) acc =
        (some c, some (c, acc.reverse ++ devs)) := by
  induction devs with
  | nil => intro acc; simp [upgradeLoop]
  | cons d ds ih =>
    intro acc
    simp only [List.map_cons, upgradeLoop, if_pos rfl]
    rw [ih (d :: acc)]
    simp

lemma mkFromTuple_map_eq (oid : Nat) (c : Client) (devs : List Device)
    (h : devs ≠ []) :
    mkFromTuple oid (devs.map (PyObj.pyDevice c)) =
      .mk oid (some c) (.native devs) none none none none none := by
  cases devs with
  | nil => exact absurd rfl h
  | cons d ds =>
    show mkFromTuple oid (PyObj.pyDevice c d :: ds.map (PyObj.pyDevice c)) = _
    rw [mkFromTuple]
    simp only [List.isEmpty_cons, Bool.false_eq_true, if_false]
    show (match upgradeLoop (ds.map (PyObj.pyDevice c)) (some c) [d] with
      | (_, some (c, devs)) =>
          PyDeviceList.mk oid (some c) (.native devs) none none none none none
      | (co, none) =>
          PyDeviceList.mk oid co
            (.ducked (PyObj.pyDevice c d :: ds.map (PyObj.pyDevice c)))
            none none none none none) = _
    rw [upgradeLoop_map_same_client]
    simp

lemma upgradeLoop_some_fail (c0 : Client) :
    ∀ (os : List PyObj) (acc : List Device),
      (¬ ∃ devs : List Device, os = devs.map (PyObj.pyDevice c0)) →
      (upgradeLoop os (some c0) acc).2 = none := by
  intro os
  induction os with
  | nil => intro acc h; exact absurd ⟨[], rfl⟩ h
  | cons o os ih =>
    intro acc h
    cases o with
    | duck d => simp [upgradeLoop]
    | pyDevice c d =>
      by_cases hc : c = c0
      · subst hc
        simp only [upgradeLoop, if_pos rfl]
        apply ih
        intro ⟨devs, hdevs⟩
        exact h ⟨d :: devs, by simp [hdevs]⟩
      · simp [upgradeLoop, hc]

lemma upgradeLoop_fail (objs : List PyObj) (hne : objs ≠ [])
    (h : ¬ ∃ (c : Client) (devs : List Device), objs = devs.map (PyObj.pyDevice c)) :
    (upgradeLoop objs none []).2 = none := by
  cases objs with
  | nil => exact absurd rfl hne
  | cons o os =>
    cases o with
    | duck d => simp [upgradeLoop]
    | pyDevice c d =>
      show (upgradeLoop os (some c) [d]).2 = none
      apply upgradeLoop_some_fail
      intro ⟨devs, hdevs⟩
      exact h ⟨c, d :: devs, by simp [hdevs]⟩

lemma mkFromTuple_loop_fail_eq (oid : Nat) (objs : List PyObj) (hne : objs ≠ [])
    (h2 : (upgradeLoop objs none []).2 = none) :
    mkFromTuple oid objs =
      .mk oid (upgradeLoop objs none []).1 (.ducked objs) none none none none none := by
  rw [mkFromTuple]
  have hie : objs.isEmpty = false := by
    cases objs with
    | nil => exact absurd rfl hne
    | cons o os => rfl
  rw [hie]
  simp only [Bool.false_eq_true, if_false]
  rcases hu : upgradeLoop objs none [] with ⟨co, res⟩
  rw [hu] at h2
  simp only at h2
  subst h2
  rfl

lemma mkFromTuple_fail_eq (oid : Nat) (objs : List PyObj) (hne : objs ≠ [])
    (h : ¬ ∃ (c : Client) (devs : List Device), objs = devs.map (PyObj.pyDevice c)) :
    mkFromTuple oid objs =
      .mk oid (upgradeLoop objs none []).1 (.ducked objs) none none none none none :=
  mkFromTuple_loop_fail_eq oid objs hne (upgradeLoop_fail objs hne h)

lemma pyDevice_map_inj {c c' : Client} :
    ∀ {devs devs' : List Device},
      devs.map (PyObj.pyDevice c) = devs'.map (PyObj.pyDevice c') → devs = devs' := by
  intro devs
  induction devs with
  | nil =>
    intro devs' h
    cases devs' with
    | nil => rfl
    | cons d ds => simp at h
  | cons d ds ih =>
    intro devs' h
    cases devs' with
    | nil => simp at h
    | cons d' ds' =>
      simp only [List.map_cons, List.cons.injEq, PyObj.pyDevice.injEq] at h
      obtain ⟨⟨_, hd⟩, htl⟩ := h
      rw [hd, ih htl]

lemma forall_pyDevice_iff_map (objs : List PyObj) (c : Client) :
    (∀ o ∈ objs, ∃ d, o = PyObj.pyDevice c d) ↔
      ∃ devs : List Device, objs = devs.map (PyObj.pyDevice c) := by
  constructor
  · intro h
    induction objs with
    | nil => exact ⟨[], rfl⟩
    | cons o os ih =>
      obtain ⟨d, hd⟩ := h o (by simp)
      obtain ⟨devs, hdevs⟩ := ih (fun o ho => h o (by simp [ho]))
      exact ⟨d :: devs, by simp [hd, hdevs]⟩
  · intro ⟨devs, hdevs⟩ o ho
    subst hdevs
    obtain ⟨d, _, hd⟩ := List.mem_map.mp ho
    exact ⟨d, hd.symm⟩

lemma built_shape {L : PyDeviceList} {objs : List PyObj} (hne : objs ≠ [])
    (h : BuiltFrom L objs) :
    (∃ (c : Client) (devs : List Device), objs = devs.map (PyObj.pyDevice c) ∧
       L = .mk L.objId (some c) (.native devs) none none none none none) ∨
    ((¬ ∃ (c : Client) (devs : List Device), objs = devs.map (PyObj.pyDevice c)) ∧
       ∃ co : Option Client,
         L = .mk L.objId co (.ducked objs) none none none none none) := by
  cases h with
  | ofNative oid c devs =>
    exact Or.inl ⟨c, devs, rfl, rfl⟩
  | ofTuple oid objs =>
    by_cases hex : ∃ (c : Client) (devs : List Device), objs = devs.map (PyObj.pyDevice c)
    · obtain ⟨c, devs, hdevs⟩ := hex
      subst hdevs
      have hdne : devs ≠ [] := by
        intro hc; subst hc; exact hne rfl
      left
      refine ⟨c, devs, rfl, ?_⟩
      rw [mkFromTuple_map_eq oid c devs hdne]
      rfl
    · right
      refine ⟨hex, (upgradeLoop objs none []).1, ?_⟩
      rw [mkFromTuple_fail_eq oid objs hne hex]
      rfl

lemma equal_refl (L : PyDeviceList) :
    L.Equal (.dl L) = .ok (true, L, .dl L) := by
  simp [Equal]

lemma equal_of_eq_device_list {A B : PyDeviceList}
    (h : A.device_list = B.device_list) (hA : HashOK A) (hB : HashOK B) :
    (A.Equal (.dl B)).map (fun r => r.1) = .ok true := by
  obtain ⟨a, coa, va, hma, fa, pa, aa, ma⟩ := A
  obtain ⟨b, cob, vb, hmb, fb, pb, ab, mb⟩ := B
  simp only [device_list] at h
  subst h
  rcases hA with h1 | h1 <;> rcases hB with h2 | h2 <;>
    simp only [hashMemo, device_list] at h1 h2 <;> subst h1 <;> subst h2 <;>
    cases va <;>
    by_cases hab : a = b <;>
    simp [Equal, Hash, objId, hab, device_list, py_client, setHash, hashMemo,
      computeHash, AsTuple, Except.map, Except.bind, Bind.bind, Except.instMonad]

lemma ifa_fresh (oid : Nat) (co : Option Client) (v : DeviceListVariant)
    (hlen : (PyDeviceList.mk oid co v none none none none none).Len ≠ 0) :
    ∃ b : Bool,
      IsFullyAddressable (.mk oid co v none none none none none) =
        .ok (b, .mk oid co v none (some b) (some (processIndicesCompute v)) none none) := by
  have hpne : processIndicesCompute v ≠ [] := processIndicesCompute_ne_nil hlen
  simp only [IsFullyAddressable, isFullyAddressableMemo, ProcessIndices,
    processIndicesMemo, setPis, setIfa, device_list]
  by_cases h1 : 1 < (processIndicesCompute v).length
  · rw [if_pos h1]
    exact ⟨false, rfl⟩
  · rw [if_neg h1]
    rcases hP : processIndicesCompute v with _ | ⟨p, rest⟩
    · exact absurd hP hpne
    · cases rest with
      | cons q qs =>
        rw [hP] at h1
        simp at h1
      | nil =>
        cases v with
        | native devs =>
          exact ⟨decide (p = (co.map Client.processIndex).getD 0), by
            simp [ifaLocalProcessIndex, device_list, py_client, Except.bind, Bind.bind,
              Except.instMonad, hP]⟩
        | ducked objs =>
          cases objs with
          | nil => simp [Len, device_list] at hlen
          | cons o os =>
            exact ⟨decide (p = o.clientProcessIndexAttr), by
              simp [ifaLocalProcessIndex, device_list, py_client, Except.bind, Bind.bind,
                Except.instMonad, hP]⟩

lemma adl_twice_fresh (oid : Nat) (co : Option Client) (v : DeviceListVariant)
    (f1 f2 : Nat)
    (hlen : (PyDeviceList.mk oid co v none none none none none).Len ≠ 0)
    (hcl : ∀ devs, v = .native devs → co.isSome = true) :
    ∃ r1 s1 r2 s2,
      AddressableDeviceList (.mk oid co v none none none none none) f1 = .ok (r1, s1) ∧
      AddressableDeviceList s1 f2 = .ok (r2, s2) ∧
      r1 = r2 ∧
      ((IsFullyAddressable
          (.mk oid co v none none none none none)).map (fun r => r.1) = .ok true →
        r1.objId = oid ∧ r2.objId = oid ∧
        s1.addressableDeviceListMemo = none ∧ s2.addressableDeviceListMemo = none) := by
  obtain ⟨b, hifa⟩ := ifa_fresh oid co v hlen
  cases b with
  | true =>
    have h1 : AddressableDeviceList (.mk oid co v none none none none none) f1 =
        .ok (.mk oid co v none (some true) (some (processIndicesCompute v)) none none,
             .mk oid co v none (some true) (some (processIndicesCompute v)) none none) := by
      simp [AddressableDeviceList, hifa, Except.bind, Bind.bind, Except.instMonad]
    have h2 : AddressableDeviceList
        (.mk oid co v none (some true) (some (processIndicesCompute v)) none none) f2 =
        .ok (.mk oid co v none (some true) (some (processIndicesCompute v)) none none,
             .mk oid co v none (some true) (some (processIndicesCompute v)) none none) := by
      simp [AddressableDeviceList, IsFullyAddressable, isFullyAddressableMemo,
        Except.bind, Bind.bind, Except.instMonad]
    exact ⟨_, _, _, _, h1, h2, rfl, fun _ => ⟨rfl, rfl, rfl, rfl⟩⟩
  | false =>
    have hvac : (IsFullyAddressable
        (.mk oid co v none none none none none)).map (fun r => r.1) = .ok true → False := by
      rw [hifa]
      intro hc
      simp [Except.map] at hc
    cases v with
    | native devs =>
      have hsome := hcl devs rfl
      obtain ⟨c, hc⟩ : ∃ c, co = some c := by
        cases co with
        | none => simp at hsome
        | some c => exact ⟨c, rfl⟩
      subst hc
      have h1 : AddressableDeviceList
          (.mk oid (some c) (.native devs) none none none none none) f1 =
          .ok (mkFreshNative f1 c
                 (devs.filter (fun d => d.processIndex = c.processIndex)),
               .mk oid (some c) (.native devs) none (some false)
                 (some (processIndicesCompute (.native devs)))
                 (some (mkFreshNative f1 c
                   (devs.filter (fun d => d.processIndex = c.processIndex))))
                 none) := by
        simp [AddressableDeviceList, hifa, Except.bind, Bind.bind, Except.instMonad,
          addressableDeviceListMemo, device_list, py_client, setAdl]
      have h2 : AddressableDeviceList
          (.mk oid (some c) (.native devs) none (some false)
            (some (processIndicesCompute (.native devs)))
            (some (mkFreshNative f1 c
              (devs.filter (fun d => d.processIndex = c.processIndex))))
            none) f2 =
          .ok (mkFreshNative f1 c
                 (devs.filter (fun d => d.processIndex = c.processIndex)),
               .mk oid (some c) (.native devs) none (some false)
                 (some (processIndicesCompute (.native devs)))
                 (some (mkFreshNative f1 c
                   (devs.filter (fun d => d.processIndex = c.processIndex))))
                 none) := by
        simp [AddressableDeviceList, IsFullyAddressable, isFullyAddressableMemo,
          addressableDeviceListMemo, Except.bind, Bind.bind, Except.instMonad]
      exact ⟨_, _, _, _, h1, h2, rfl, fun h => absurd h hvac⟩
    | ducked objs =>
      have h1 : AddressableDeviceList
          (.mk oid co (.ducked objs) none none none none none) f1 =
          .ok (mkFromTuple f1
                 (objs.filter (fun o => o.processIndexAttr = o.clientProcessIndexAttr)),
               .mk oid co (.ducked objs) none (some false)
                 (some (processIndicesCompute (.ducked objs)))
                 (some (mkFromTuple f1
                   (objs.filter (fun o => o.processIndexAttr = o.clientProcessIndexAttr))))
                 none) := by
        simp [AddressableDeviceList, hifa, Except.bind, Bind.bind, Except.instMonad,
          addressableDeviceListMemo, device_list, py_client, setAdl]
      have h2 : AddressableDeviceList
          (.mk oid co (.ducked objs) none (some false)
            (some (processIndicesCompute (.ducked objs)))
            (some (mkFromTuple f1
              (objs.filter (fun o => o.processIndexAttr = o.clientProcessIndexAttr))))
            none) f2 =
          .ok (mkFromTuple f1
                 (objs.filter (fun o => o.processIndexAttr = o.clientProcessIndexAttr)),
               .mk oid co (.ducked objs) none (some false)
                 (some (processIndicesCompute (.ducked objs)))
                 (some (mkFromTuple f1
                   (objs.filter (fun o => o.processIndexAttr = o.clientProcessIndexAttr))))
                 none) := by
        simp [AddressableDeviceList, IsFullyAddressable, isFullyAddressableMemo,
          addressableDeviceListMemo, Except.bind, Bind.bind, Except.instMonad]
      exact ⟨_, _, _, _, h1, h2, rfl, fun h => absurd h hvac⟩

end PyDeviceList

/-! Concrete sample clients and devices used by the closed theorems below. -/

/-- A sample client living in process 0. -/
def sampleClient : Client := ⟨0, 0⟩

/-- A device of `sampleClient` in process 0 (locally addressable). -/
def localDev : Device := ⟨100, 0, "gpu", .ok "device", ["device", "pinned_host"]⟩

/-- A second local device of `sampleClient`. -/
def localDev2 : Device := ⟨101, 0, "gpu", .ok "device", ["device"]⟩

/-- A device of `sampleClient` placed in process 1 (remote). -/
def remoteDev : Device := ⟨102, 1, "gpu", .ok "device", ["device"]⟩

/-- A device whose default-memory query fails with status message "boom". -/
def badDev : Device := ⟨103, 0, "gpu", .error "boom", []⟩

/-- A duck-typed device in process 0 whose own client is also in process 0. -/
def duckP0 : DuckDevice := ⟨200, 0, 0, .ok "m", ["m"]⟩

/-- A duck-typed device in process 1 whose own client is also in process 1. -/
def duckP1 : DuckDevice := ⟨201, 1, 1, .ok "m", ["m"]⟩

open PyDeviceList in
/-- C1, counterexample: a native-variant Device-List and a tuple-constructed
Device-List built from the same (empty) ordered device identities compare
unequal and hash differently: the empty tuple is kept in the
external-sequence variant by the constructor, and the two variants hash with
unrelated hash functions, so `Equal` rejects at the hash comparison.  This
refutes the claim as stated for the empty identity sequence. -/
theorem c1_counterexample :
    (Equal (mkFreshNative 0 sampleClient []) (.dl (mkFromTuple 1 []))).map
      (fun r => r.1) = .ok false ∧
    (Hash (mkFreshNative 0 sampleClient [])).1 ≠ (Hash (mkFromTuple 1 [])).1 :=
  ⟨rfl, by decide⟩

open PyDeviceList in
/-- C1, amended: for every two Device-Lists built from the same NON-EMPTY
ordered device identities via either construction path, `Equal` returns true
and `Hash` agrees.  (For a non-empty identity sequence both builds land in
the same internal variant — all-one-client native sequences are upgraded by
the tuple constructor, and anything else is only constructible as the
external-sequence variant — so the two unrelated per-variant hash functions
are never compared against each other.) -/
theorem c1_equal_and_hash_agree {A B : PyDeviceList} {objs : List PyObj}
    (hne : objs ≠ []) (hA : BuiltFrom A objs) (hB : BuiltFrom B objs) :
    (A.Equal (.dl B)).map (fun r => r.1) = .ok true ∧ A.Hash.1 = B.Hash.1 := by
  rcases built_shape hne hA with ⟨c, devs, hobjs, hAeq⟩ | ⟨hnex, coA, hAeq⟩
  · rcases built_shape hne hB with ⟨c', devs', hobjs', hBeq⟩ | ⟨hnex, _, _⟩
    · have hmaps : devs.map (PyObj.pyDevice c) = devs'.map (PyObj.pyDevice c') := by
        rw [← hobjs, ← hobjs']
      have hdd := pyDevice_map_inj hmaps
      subst hdd
      constructor
      · apply equal_of_eq_device_list
        · rw [hAeq, hBeq]
          rfl
        · rw [hAeq]; exact Or.inl rfl
        · rw [hBeq]; exact Or.inl rfl
      · rw [hAeq, hBeq]
        rfl
    · exact absurd ⟨c, devs, hobjs⟩ hnex
  · rcases built_shape hne hB with ⟨c, devs, hobjs, _⟩ | ⟨_, coB, hBeq⟩
    · exact absurd ⟨c, devs, hobjs⟩ hnex
    · constructor
      · apply equal_of_eq_device_list
        · rw [hAeq, hBeq]
          rfl
        · rw [hAeq]; exact Or.inl rfl
        · rw [hBeq]; exact Or.inl rfl
      · rw [hAeq, hBeq]
        rfl

open PyDeviceList in
/-- C1, witness: the amended theorem applied to a concrete one-device
identity sequence, built natively and through the tuple constructor. -/
theorem c1_equal_and_hash_agree_witness :
    (Equal (mkFreshNative 10 sampleClient [localDev])
        (.dl (mkFromTuple 11 [.pyDevice sampleClient localDev]))).map
      (fun r => r.1) = .ok true ∧
    (Hash (mkFreshNative 10 sampleClient [localDev])).1 =
      (Hash (mkFromTuple 11 [.pyDevice sampleClient localDev])).1 :=
  c1_equal_and_hash_agree (by simp)
    (BuiltFrom.ofNative 10 sampleClient [localDev])
    (BuiltFrom.ofTuple 11 [.pyDevice sampleClient localDev])

open PyDeviceList in
/-- C2: on an empty Device-List of either variant, `ProcessIndices` does
return the empty set as claimed, but `IsFullyAddressable` does not return
true: it reaches `CHECK_EQ(process_indices_->size(), 1)` with an empty set
and aborts (a fatal assertion failure), for both variants. -/
theorem c2_empty_list_behavior :
    (ProcessIndices (mkFromTuple 0 [])).1 = [] ∧
    (∀ (oid : Nat) (c : Client), (ProcessIndices (mkFreshNative oid c [])).1 = []) ∧
    IsFullyAddressable (mkFromTuple 0 []) = .error .checkFailure ∧
    (∀ (oid : Nat) (c : Client),
      IsFullyAddressable (mkFreshNative oid c []) = .error .checkFailure) :=
  ⟨rfl, fun _ _ => rfl, rfl, fun _ _ => rfl⟩

open PyDeviceList in
/-- C3: the addressable sublist of a non-fully-addressable list need not be
fully addressable.  First failing input: a duck-typed list of two devices
with (process_index, client.process_index()) pairs (0,0) and (1,1); the list
is not fully addressable, `AddressableDeviceList` keeps both devices (each
matches its own client), and `IsFullyAddressable` on the two-element result
is false because its process-index set is the two-element set 0, 1.  Second
failing input: a native list whose only device is remote; the filtered
sublist is empty and `IsFullyAddressable` on it aborts in
`CHECK_EQ(process_indices_->size(), 1)`. -/
theorem c3_addressable_sublist_eval :
    ((IsFullyAddressable (mkFromTuple 0 [.duck duckP0, .duck duckP1])).map
      (fun r => r.1) = .ok false) ∧
    ((AddressableDeviceList (mkFromTuple 0 [.duck duckP0, .duck duckP1]) 1).map
      (fun r => r.1.Len) = .ok 2) ∧
    ((AddressableDeviceList (mkFromTuple 0 [.duck duckP0, .duck duckP1]) 1).bind
      (fun r => (IsFullyAddressable r.1).map (fun q => q.1)) = .ok false) ∧
    ((IsFullyAddressable (mkFreshNative 2 sampleClient [remoteDev])).map
      (fun r => r.1) = .ok false) ∧
    ((AddressableDeviceList (mkFreshNative 2 sampleClient [remoteDev]) 3).bind
      (fun r => IsFullyAddressable r.1) = .error .checkFailure) :=
  ⟨rfl, rfl, rfl, rfl, rfl⟩

open PyDeviceList in
/-- C4, counterexample: on the empty Device-List the very first call to
`AddressableDeviceList` does not return a list at all — it aborts inside
`IsFullyAddressable` at `CHECK_EQ(process_indices_->size(), 1)` — so the
claim's universally quantified idempotence fails on the empty list. -/
theorem c4_counterexample :
    AddressableDeviceList (mkFromTuple 0 []) 1 = .error .checkFailure := rfl

open PyDeviceList in
/-- C4, amended: for every NON-EMPTY freshly constructed Device-List, two
calls of `AddressableDeviceList` succeed and return lists that are `Equal`
(indeed the identical instance: the second call returns the memoized first
result, or `self` both times when fully addressable); and when the list is
fully addressable both calls return the identical instance `self`, which is
never stored in the addressable-sublist memoization field. -/
theorem c4_addressable_idempotent {A : PyDeviceList} {objs : List PyObj}
    (f1 f2 : Nat) (hne : objs ≠ []) (hb : BuiltFrom A objs) :
    ∃ r1 s1 r2 s2,
      A.AddressableDeviceList f1 = .ok (r1, s1) ∧
      s1.AddressableDeviceList f2 = .ok (r2, s2) ∧
      (r1.Equal (.dl r2)).map (fun r => r.1) = .ok true ∧
      (A.IsFullyAddressable.map (fun r => r.1) = .ok true →
        r1.objId = A.objId ∧ r2.objId = A.objId ∧
        s1.addressableDeviceListMemo = none ∧ s2.addressableDeviceListMemo = none) := by
  rcases built_shape hne hb with ⟨c, devs, hobjs, hAeq⟩ | ⟨_, co, hAeq⟩
  · have hdevs : devs ≠ [] := by
      intro hc
      subst hc
      exact hne hobjs
    rw [hAeq]
    obtain ⟨r1, s1, r2, s2, h1, h2, hr, himp⟩ :=
      adl_twice_fresh A.objId (some c) (.native devs) f1 f2
        (by
          simp only [Len, device_list, ne_eq, List.length_eq_zero]
          exact hdevs)
        (fun _ _ => rfl)
    subst hr
    refine ⟨r1, s1, r1, s2, h1, h2, ?_, ?_⟩
    · rw [equal_refl]
      rfl
    · intro h
      obtain ⟨ha, hb', hc', hd⟩ := himp h
      exact ⟨ha, hb', hc', hd⟩
  · rw [hAeq]
    obtain ⟨r1, s1, r2, s2, h1, h2, hr, himp⟩ :=
      adl_twice_fresh A.objId co (.ducked objs) f1 f2
        (by
          simp only [Len, device_list, ne_eq, List.length_eq_zero]
          exact hne)
        (fun devs' h => by simp at h)
    subst hr
    refine ⟨r1, s1, r1, s2, h1, h2, ?_, ?_⟩
    · rw [equal_refl]
      rfl
    · intro h
      obtain ⟨ha, hb', hc', hd⟩ := himp h
      exact ⟨ha, hb', hc', hd⟩

open PyDeviceList in
/-- C4, witness: the amended theorem applied to a concrete non-empty
duck-typed Device-List. -/
theorem c4_addressable_idempotent_witness :
    ∃ r1 s1 r2 s2,
      AddressableDeviceList (mkFromTuple 30 [.duck duckP0]) 31 = .ok (r1, s1) ∧
      AddressableDeviceList s1 32 = .ok (r2, s2) ∧
      (Equal r1 (.dl r2)).map (fun r => r.1) = .ok true := by
  obtain ⟨r1, s1, r2, s2, h1, h2, h3, _⟩ :=
    @c4_addressable_idempotent (mkFromTuple 30 [.duck duckP0]) [.duck duckP0]
      31 32 (by simp) (BuiltFrom.ofTuple 30 [.duck duckP0])
  exact ⟨r1, s1, r2, s2, h1, h2, h3⟩

open PyDeviceList in
/-- C5, counterexample: the empty native-variant Device-List serializes to
the empty device sequence, but reconstructing from that sequence gives an
external-sequence-variant empty list, which compares unequal to the
original (the two variants hash with unrelated functions). -/
theorem c5_counterexample :
    Dump (mkFreshNative 0 sampleClient []) = .ok [] ∧
    (Equal (mkFreshNative 0 sampleClient []) (.dl (mkFromTuple 1 []))).map
      (fun r => r.1) = .ok false :=
  ⟨rfl, rfl⟩

open PyDeviceList in
/-- C5, amended: every well-formed Device-List except an empty
native-variant list round-trips: serializing to its ordered device sequence
(`Dump`/`AsTuple`) and rebuilding through the tuple constructor (with its
opportunistic upgrade) yields a Device-List `Equal` to the original. -/
theorem c5_roundtrip {st : PyDeviceList} (oid : Nat)
    (h1 : VariantOK st) (h2 : HashOK st) (h3 : st.device_list ≠ .native []) :
    ∃ t, st.Dump = .ok t ∧
      (st.Equal (.dl (mkFromTuple oid t))).map (fun r => r.1) = .ok true := by
  rcases hv : st.device_list with devs | objs
  · have hd : devs ≠ [] := by
      intro hc
      subst hc
      exact h3 hv
    have hcs : ∃ c, st.py_client = some c := by
      unfold VariantOK at h1
      rw [hv] at h1
      exact Option.isSome_iff_exists.mp h1
    obtain ⟨c, hc⟩ := hcs
    refine ⟨devs.map (PyObj.pyDevice c), ?_, ?_⟩
    · simp [Dump, AsTuple, hv, hc]
    · apply equal_of_eq_device_list
      · rw [mkFromTuple_map_eq oid c devs hd, hv]
        rfl
      · exact h2
      · rw [mkFromTuple_map_eq oid c devs hd]
        exact Or.inl rfl
  · refine ⟨objs, ?_, ?_⟩
    · simp [Dump, AsTuple, hv]
    · by_cases ho : objs = []
      · subst ho
        apply equal_of_eq_device_list
        · rw [hv]
          rfl
        · exact h2
        · exact Or.inl rfl
      · have hfail : (upgradeLoop objs none []).2 = none := by
          unfold VariantOK at h1
          rw [hv] at h1
          exact h1 ho
        apply equal_of_eq_device_list
        · rw [mkFromTuple_loop_fail_eq oid objs ho hfail, hv]
          rfl
        · exact h2
        · rw [mkFromTuple_loop_fail_eq oid objs ho hfail]
          exact Or.inl rfl

open PyDeviceList in
/-- C5, witness: the amended theorem applied to a concrete non-empty
duck-variant Device-List. -/
theorem c5_roundtrip_witness :
    ∃ t, Dump (mkFromTuple 40 [.duck duckP0]) = .ok t ∧
      (Equal (mkFromTuple 40 [.duck duckP0]) (.dl (mkFromTuple 41 t))).map
        (fun r => r.1) = .ok true :=
  c5_roundtrip 41 (by intro _; rfl) (Or.inl rfl) (by decide)

open PyDeviceList in
/-- C6: constructing from a non-empty sequence of device objects yields the
native variant exactly when every element is a `PyDevice` wrapper and all
wrappers share one owning client; otherwise the constructor keeps the
external sequence unchanged (the fallback is silent — the model constructor
is total, since `MakeDeviceList` is only reached with devices of the one
shared client and so cannot fail). -/
theorem c6_upgrade_iff (oid : Nat) (objs : List PyObj) (hne : objs ≠ []) :
    ((∃ devs, (mkFromTuple oid objs).device_list = .native devs) ↔
      ∃ c, ∀ o ∈ objs, ∃ d, o = PyObj.pyDevice c d) ∧
    ((¬ ∃ c, ∀ o ∈ objs, ∃ d, o = PyObj.pyDevice c d) →
      (mkFromTuple oid objs).device_list = .ducked objs) := by
  by_cases hex : ∃ c, ∀ o ∈ objs, ∃ d, o = PyObj.pyDevice c d
  · obtain ⟨c, hall⟩ := hex
    obtain ⟨devs, hdevs⟩ := (forall_pyDevice_iff_map objs c).mp hall
    subst hdevs
    have hd : devs ≠ [] := by
      intro hc
      subst hc
      exact hne rfl
    rw [mkFromTuple_map_eq oid c devs hd]
    refine ⟨⟨fun _ => ⟨c, hall⟩, fun _ => ⟨devs, rfl⟩⟩, fun hno => absurd ⟨c, hall⟩ hno⟩
  · have hnex2 : ¬ ∃ (c : Client) (devs : List Device),
        objs = devs.map (PyObj.pyDevice c) := by
      intro ⟨c, devs, hdevs⟩
      exact hex ⟨c, (forall_pyDevice_iff_map objs c).mpr ⟨devs, hdevs⟩⟩
    rw [mkFromTuple_fail_eq oid objs hne hnex2]
    refine ⟨⟨fun ⟨devs, hd⟩ => ?_, fun h => absurd h hex⟩, fun _ => rfl⟩
    simp [device_list] at hd

open PyDeviceList in
/-- C6, witness: the theorem applied to a concrete two-element same-client
sequence. -/
theorem c6_upgrade_iff_witness :
    ((∃ devs,
        (mkFromTuple 50 [.pyDevice sampleClient localDev,
          .pyDevice sampleClient localDev2]).device_list = .native devs) ↔
      ∃ c, ∀ o ∈ [PyObj.pyDevice sampleClient localDev,
          PyObj.pyDevice sampleClient localDev2], ∃ d, o = PyObj.pyDevice c d) ∧
    ((¬ ∃ c, ∀ o ∈ [PyObj.pyDevice sampleClient localDev,
          PyObj.pyDevice sampleClient localDev2], ∃ d, o = PyObj.pyDevice c d) →
      (mkFromTuple 50 [.pyDevice sampleClient localDev,
        .pyDevice sampleClient localDev2]).device_list =
        .ducked [.pyDevice sampleClient localDev, .pyDevice sampleClient localDev2]) :=
  c6_upgrade_iff 50 [.pyDevice sampleClient localDev, .pyDevice sampleClient localDev2]
    (by simp)

open PyDeviceList in
/-- C7: if the first computation of memory-kind information fails, the
failure value is cached in `memory_kind_info_` and every subsequent call to
`MemoryKinds` or `DefaultMemoryKind` returns that same failure with the
state unchanged — in particular the cached-failure clause holds for an
arbitrary list state, independently of what a recomputation would now
produce, which is exactly "no retry on read". -/
theorem c7_memory_kind_failure_cached (st : PyDeviceList) (e : String)
    (h1 : st.memoryKindInfoMemo = none)
    (h2 : st.populateMemoryKindInfo = .error e) :
    st.MemoryKinds = (.error e, st.setMki (some (.error e))) ∧
    st.DefaultMemoryKind = (.error e, st.setMki (some (.error e))) ∧
    (st.setMki (some (.error e))).memoryKindInfoMemo = some (.error e) ∧
    (∀ t : PyDeviceList, t.memoryKindInfoMemo = some (.error e) →
      t.MemoryKinds = (.error e, t) ∧ t.DefaultMemoryKind = (.error e, t)) := by
  refine ⟨?_, ?_, ?_, ?_⟩
  · simp [MemoryKinds, h1, h2]
  · simp [DefaultMemoryKind, h1, h2]
  · obtain ⟨a, co, v, hm, f, p, ad, m⟩ := st
    rfl
  · intro t ht
    exact ⟨by simp [MemoryKinds, ht], by simp [DefaultMemoryKind, ht]⟩

open PyDeviceList in
/-- C7, witness: the theorem applied to a concrete native list whose first
device's default-memory query fails. -/
theorem c7_memory_kind_failure_cached_witness :
    (MemoryKinds (mkFreshNative 0 sampleClient [badDev])).1 = .error "boom" := by
  have h := c7_memory_kind_failure_cached (mkFreshNative 0 sampleClient [badDev])
    "boom" rfl rfl
  rw [h.1]

open PyDeviceList in
/-- C8: on an empty Device-List of either variant, `DefaultMemoryKind`
succeeds with the none value and `MemoryKinds` succeeds with the empty
sequence. -/
theorem c8_empty_memory_kinds :
    (∀ oid : Nat,
      (MemoryKinds (mkFromTuple oid [])).1 = .ok [] ∧
      (DefaultMemoryKind (mkFromTuple oid [])).1 = .ok none) ∧
    (∀ (oid : Nat) (c : Client),
      (MemoryKinds (mkFreshNative oid c [])).1 = .ok [] ∧
      (DefaultMemoryKind (mkFreshNative oid c [])).1 = .ok none) :=
  ⟨fun _ => ⟨rfl, rfl⟩, fun _ _ => ⟨rfl, rfl⟩⟩

open PyDeviceList in
/-- C9: `GetItem` on a native-variant Device-List of length n: a negative
index with -n ≤ index < 0 returns the device handle at position index + n, a
non-negative index < n returns the handle at that position, and any index
outside [-n, n) raises an index error. -/
theorem c9_getitem_indexing (c : Client) (devs : List Device) (oid : Nat) (i : Int) :
    ((-(devs.length : Int) ≤ i → i < 0 →
      ∃ d, devs[(i + devs.length).toNat]? = some d ∧
        (mkFreshNative oid c devs).GetItem i = .ok (.pyDevice c d)) ∧
     (0 ≤ i → i < (devs.length : Int) →
      ∃ d, devs[i.toNat]? = some d ∧
        (mkFreshNative oid c devs).GetItem i = .ok (.pyDevice c d)) ∧
     ((i < -(devs.length : Int) ∨ (devs.length : Int) ≤ i) →
      (mkFreshNative oid c devs).GetItem i = .error .indexError)) := by
  refine ⟨?_, ?_, ?_⟩
  · intro hge hlt
    have hcond : ¬(i < -(devs.length : Int) ∨ (devs.length : Int) ≤ i) := by omega
    have hidx : (i + devs.length).toNat < devs.length := by omega
    refine ⟨devs.get ⟨(i + devs.length).toNat, hidx⟩, List.getElem?_eq_getElem hidx, ?_⟩
    simp only [GetItem, mkFreshNative, device_list, py_client]
    rw [if_neg hcond, if_pos hlt, List.getElem?_eq_getElem hidx]
    rfl
  · intro hge hlt
    have hcond : ¬(i < -(devs.length : Int) ∨ (devs.length : Int) ≤ i) := by omega
    have hnneg : ¬ i < 0 := by omega
    have hidx : i.toNat < devs.length := by omega
    refine ⟨devs.get ⟨i.toNat, hidx⟩, List.getElem?_eq_getElem hidx, ?_⟩
    simp only [GetItem, mkFreshNative, device_list, py_client]
    rw [if_neg hcond, if_neg hnneg, List.getElem?_eq_getElem hidx]
    rfl
  · intro h
    simp only [GetItem, mkFreshNative, device_list, py_client]
    rw [if_pos h]

open PyDeviceList in
/-- C9, witness: the theorem applied at index -1 (returns position 1), index
0 (returns position 0) and index 5 (index error) on a concrete two-device
native list. -/
theorem c9_getitem_indexing_witness :
    (∃ d, ([localDev, localDev2] : List Device)[((-1 : Int) + 2).toNat]? = some d ∧
      (mkFreshNative 0 sampleClient [localDev, localDev2]).GetItem (-1) =
        .ok (.pyDevice sampleClient d)) ∧
    (∃ d, ([localDev, localDev2] : List Device)[(0 : Int).toNat]? = some d ∧
      (mkFreshNative 0 sampleClient [localDev, localDev2]).GetItem 0 =
        .ok (.pyDevice sampleClient d)) ∧
    (mkFreshNative 0 sampleClient [localDev, localDev2]).GetItem 5 =
      .error .indexError :=
  ⟨(c9_getitem_indexing sampleClient [localDev, localDev2] 0 (-1)).1
      (by decide) (by decide),
   (c9_getitem_indexing sampleClient [localDev, localDev2] 0 0).2.1
      (by decide) (by decide),
   (c9_getitem_indexing sampleClient [localDev, localDev2] 0 5).2.2
      (by decide)⟩

open PyDeviceList in
/-- C10: `Equal` returns false (and `NotEqual` true) for every object that
is not a Device-List instance, without raising; and `Equal(self, self)`
returns true through the pointer-identity fast path, leaving the state of
`self` — in particular its `hash_` memo — completely untouched, i.e. no
hash is computed. -/
theorem c10_equal_fast_paths :
    (∀ (self : PyDeviceList) (oid : Nat),
      self.Equal (.other oid) = .ok (false, self, .other oid) ∧
      self.NotEqual (.other oid) = .ok (true, self, .other oid)) ∧
    (∀ self : PyDeviceList, self.Equal (.dl self) = .ok (true, self, .dl self)) :=
  ⟨fun _ _ => ⟨rfl, rfl⟩, fun self => equal_refl self⟩

end JaxDL
